import Mathlib

/-!
Verification of the Inara API client core of EliteStatusCheck
(`src/elite_status/inara_client.py`, `inara_config.py`, `inara_models.py`).

The Python code is shallowly embedded:
  * JSON payloads (`dict` / `list` / scalars) become the `Json` inductive;
    Python `float` values are carried as exact rationals (no claim computes
    with them, they are only parsed and stored).
  * pydantic models become structures, and each model's constructor
    `Model(**data)` becomes an executable parser over `Json` that checks the
    declared required/optional fields.  pydantic's lax coercions (e.g. the
    string "5" for an int field) are not modelled; no claim exercises them.
  * `time.time()` instants are rationals, supplied explicitly.
  * The HTTP layer is an environment `Nat → HttpOutcome` giving, per attempt
    number, either a transport error (`httpx.RequestError`) or a status
    code / text / already-parsed JSON body.
  * Exceptions become an error type threaded through `Except` / result
    records.  The `try` body of `_make_request` is modelled separately from
    its `except` clauses so that the trailing broad
    `except Exception: raise InaraApiException(f"Unexpected error: {e}")`
    is reproduced exactly as written.
-/

set_option autoImplicit false

namespace EliteStatus

/-! ## JSON values -/

/-- A Python JSON value (the result of `response.json()`, event payloads,
and the dictionaries produced by `model_dump()`).  Objects keep their
key/value pairs in insertion order, as Python dicts do. -/
inductive Json where
  | null
  | bool (b : Bool)
  | int (n : Int)
  | num (q : ℚ)
  | str (s : String)
  | arr (elems : List Json)
  | obj (fields : List (String × Json))

/-- First-match key lookup in a JSON object's field list (Python dict access;
Python dicts cannot hold duplicate keys, so first-match is exact). -/
def lookupField : List (String × Json) → String → Option Json
  | [], _ => none
  | (k, v) :: rest, key => if k = key then some v else lookupField rest key

/-- `j[key]` for an object, `none` otherwise. -/
def Json.getField : Json → String → Option Json
  | .obj fields, key => lookupField fields key
  | _, _ => none

mutual

/-- Structural equality of JSON values.  In the Python source the cache key
is the string `f"{commanderName}:{hash(str(events_data))}"`; two requests
with equal commander name and equal `(eventName, eventData)` lists always
produce the same key, which is what this equality models (the unmodelled
`hash` can only merge *distinct* keys, and no claim relies on distinctness). -/
def Json.beq : Json → Json → Bool
  | .null, .null => true
  | .bool a, .bool b => a == b
  | .int a, .int b => a == b
  | .num a, .num b => a == b
  | .str a, .str b => a == b
  | .arr a, .arr b => Json.beqArr a b
  | .obj a, .obj b => Json.beqObj a b
  | _, _ => false

/-- Elementwise equality of JSON arrays. -/
def Json.beqArr : List Json → List Json → Bool
  | [], [] => true
  | a :: as, b :: bs => Json.beq a b && Json.beqArr as bs
  | _, _ => false

/-- Pairwise equality of JSON object field lists. -/
def Json.beqObj : List (String × Json) → List (String × Json) → Bool
  | [], [] => true
  | (k1, v1) :: as, (k2, v2) :: bs => k1 == k2 && Json.beq v1 v2 && Json.beqObj as bs
  | _, _ => false

end

/-! ## Data models (`inara_models.py`) -/

/-- `InaraEventType` (a Python `str` enum of the supported operations). -/
inductive InaraEventType where
  | getCommanderProfile
  | getCommanderShip
  | getCommanderShips
  | getCommanderCredits
  | getCommanderRanks
  | getCommanderReputation
  | getSystemStations
  | getSystemFactions
  | getStationMarket
  | setCommanderTravelDock
  | setCommanderTravelJump
deriving DecidableEq

/-- `InaraApiHeader`: request/response header. -/
structure InaraApiHeader where
  appName : String
  appVersion : String
  isDeveloped : Bool
  APIkey : String
  commanderName : Option String
  commanderFrontierID : Option String
deriving DecidableEq

/-- `InaraEvent`: one outbound event.  `eventData : Optional[Dict[str, Any]]`
is an optional JSON object, kept as its field list. -/
structure InaraEvent where
  eventName : InaraEventType
  eventTimestamp : String
  eventData : Option (List (String × Json))
  eventCustomID : Option Int

/-- `InaraRequest`: header plus ordered event list. -/
structure InaraRequest where
  header : InaraApiHeader
  events : List InaraEvent

/-- `InaraEventResponse`: one inbound per-event response. -/
structure InaraEventResponse where
  eventStatus : Int
  eventStatusText : String
  eventData : Option (List (String × Json))
  eventCustomID : Option Int

/-- `InaraResponse`: the full response shape. -/
structure InaraResponse where
  header : InaraApiHeader
  events : List InaraEventResponse

/-- `InaraErrorHeader`: simplified header used by the alternate error shape. -/
structure InaraErrorHeader where
  eventStatus : Int
  eventStatusText : String

/-- `InaraErrorResponse`: the simplified error response shape. -/
structure InaraErrorResponse where
  header : InaraErrorHeader

/-! ## pydantic constructors as parsers

`Model(**data)` raises `TypeError` when `data` is not a mapping and
`ValidationError` when a declared field is missing or has the wrong type;
nested-model coercion failures are `ValidationError`s of the outer call. -/

/-- The two exception classes a pydantic construction can raise. -/
inductive PyExc where
  | validationError
  | typeError
deriving DecidableEq

/-- Required `str` field. -/
def parseStrField (fields : List (String × Json)) (name : String) :
    Except PyExc String :=
  match lookupField fields name with
  | some (.str s) => .ok s
  | _ => .error .validationError

/-- Required `int` field. -/
def parseIntField (fields : List (String × Json)) (name : String) :
    Except PyExc Int :=
  match lookupField fields name with
  | some (.int n) => .ok n
  | _ => .error .validationError

/-- Required `float` field (accepts JSON ints as well, as pydantic does). -/
def parseFloatField (fields : List (String × Json)) (name : String) :
    Except PyExc ℚ :=
  match lookupField fields name with
  | some (.num q) => .ok q
  | some (.int n) => .ok (n : ℚ)
  | _ => .error .validationError

/-- `bool` field with a declared default. -/
def parseBoolFieldD (fields : List (String × Json)) (name : String)
    (dflt : Bool) : Except PyExc Bool :=
  match lookupField fields name with
  | none => .ok dflt
  | some (.bool b) => .ok b
  | _ => .error .validationError

/-- `int` field with a declared default. -/
def parseIntFieldD (fields : List (String × Json)) (name : String)
    (dflt : Int) : Except PyExc Int :=
  match lookupField fields name with
  | none => .ok dflt
  | some (.int n) => .ok n
  | _ => .error .validationError

/-- `float` field with a declared default. -/
def parseFloatFieldD (fields : List (String × Json)) (name : String)
    (dflt : ℚ) : Except PyExc ℚ :=
  match lookupField fields name with
  | none => .ok dflt
  | some (.num q) => .ok q
  | some (.int n) => .ok (n : ℚ)
  | _ => .error .validationError

/-- `Optional[str]` field defaulting to `None`. -/
def parseOptStrField (fields : List (String × Json)) (name : String) :
    Except PyExc (Option String) :=
  match lookupField fields name with
  | none => .ok none
  | some .null => .ok none
  | some (.str s) => .ok (some s)
  | _ => .error .validationError

/-- `Optional[int]` field defaulting to `None`. -/
def parseOptIntField (fields : List (String × Json)) (name : String) :
    Except PyExc (Option Int) :=
  match lookupField fields name with
  | none => .ok none
  | some .null => .ok none
  | some (.int n) => .ok (some n)
  | _ => .error .validationError

/-- `Optional[Dict[str, Any]]` field defaulting to `None`. -/
def parseOptDictField (fields : List (String × Json)) (name : String) :
    Except PyExc (Option (List (String × Json))) :=
  match lookupField fields name with
  | none => .ok none
  | some .null => .ok none
  | some (.obj kvs) => .ok (some kvs)
  | _ => .error .validationError

/-- The enum values of `InaraEventType`. -/
def parseEventTypeField (fields : List (String × Json)) (name : String) :
    Except PyExc InaraEventType :=
  match lookupField fields name with
  | some (.str "getCommanderProfile") => .ok .getCommanderProfile
  | some (.str "getCommanderShip") => .ok .getCommanderShip
  | some (.str "getCommanderShips") => .ok .getCommanderShips
  | some (.str "getCommanderCredits") => .ok .getCommanderCredits
  | some (.str "getCommanderRanks") => .ok .getCommanderRanks
  | some (.str "getCommanderReputation") => .ok .getCommanderReputation
  | some (.str "getSystemStations") => .ok .getSystemStations
  | some (.str "getSystemFactions") => .ok .getSystemFactions
  | some (.str "getStationMarket") => .ok .getStationMarket
  | some (.str "setCommanderTravelDock") => .ok .setCommanderTravelDock
  | some (.str "setCommanderTravelJump") => .ok .setCommanderTravelJump
  | _ => .error .validationError

/-- `InaraApiHeader(**fields)`, field part. -/
def parseInaraApiHeaderFields (fields : List (String × Json)) :
    Except PyExc InaraApiHeader := do
  let appName ← parseStrField fields "appName"
  let appVersion ← parseStrField fields "appVersion"
  let isDeveloped ← parseBoolFieldD fields "isDeveloped" true
  let apiKey ← parseStrField fields "APIkey"
  let commanderName ← parseOptStrField fields "commanderName"
  let commanderFrontierID ← parseOptStrField fields "commanderFrontierID"
  return ⟨appName, appVersion, isDeveloped, apiKey, commanderName, commanderFrontierID⟩

/-- `InaraEventResponse(**fields)`, field part. -/
def parseInaraEventResponseFields (fields : List (String × Json)) :
    Except PyExc InaraEventResponse := do
  let eventStatus ← parseIntField fields "eventStatus"
  let eventStatusText ← parseStrField fields "eventStatusText"
  let eventData ← parseOptDictField fields "eventData"
  let eventCustomID ← parseOptIntField fields "eventCustomID"
  return ⟨eventStatus, eventStatusText, eventData, eventCustomID⟩

/-- A nested pydantic model field: the value must be a JSON object coercible
into the nested model; anything else is a `ValidationError` of the outer
construction. -/
def parseNested {α : Type} (parseFields : List (String × Json) → Except PyExc α)
    (j : Json) : Except PyExc α :=
  match j with
  | .obj kvs =>
    match parseFields kvs with
    | .ok a => .ok a
    | .error _ => .error .validationError
  | _ => .error .validationError

/-- A `List[Model]` field value: must be a JSON array of nested models. -/
def parseNestedList {α : Type}
    (parseFields : List (String × Json) → Except PyExc α) :
    List Json → Except PyExc (List α)
  | [] => .ok []
  | j :: rest => do
    let a ← parseNested parseFields j
    let as ← parseNestedList parseFields rest
    return a :: as

/-- `InaraResponse(**fields)`, field part: required nested `header` and
required `events` list of nested `InaraEventResponse`. -/
def parseInaraResponseFields (fields : List (String × Json)) :
    Except PyExc InaraResponse := do
  let header ←
    match lookupField fields "header" with
    | some j => parseNested parseInaraApiHeaderFields j
    | none => .error .validationError
  let events ←
    match lookupField fields "events" with
    | some (.arr items) => parseNestedList parseInaraEventResponseFields items
    | _ => .error .validationError
  return ⟨header, events⟩

/-- `InaraErrorHeader(**fields)`, field part. -/
def parseInaraErrorHeaderFields (fields : List (String × Json)) :
    Except PyExc InaraErrorHeader := do
  let eventStatus ← parseIntField fields "eventStatus"
  let eventStatusText ← parseStrField fields "eventStatusText"
  return ⟨eventStatus, eventStatusText⟩

/-- `InaraErrorResponse(**fields)`, field part. -/
def parseInaraErrorResponseFields (fields : List (String × Json)) :
    Except PyExc InaraErrorResponse := do
  let header ←
    match lookupField fields "header" with
    | some j => parseNested parseInaraErrorHeaderFields j
    | none => .error .validationError
  return ⟨header⟩

/-- A top-level `Model(**data)` call on a JSON value: a non-mapping argument
raises `TypeError` before any field validation happens. -/
def pyCall {α : Type} (parseFields : List (String × Json) → Except PyExc α)
    (j : Json) : Except PyExc α :=
  match j with
  | .obj kvs => parseFields kvs
  | _ => .error .typeError

/-- `InaraResponse(**data)` on a JSON value. -/
def parseInaraResponseJson : Json → Except PyExc InaraResponse :=
  pyCall parseInaraResponseFields

/-! ## `model_dump()` of a response (what `_set_cache` stores) -/

/-- Dump of an `Optional[str]` field. -/
def dumpOptStr : Option String → Json
  | none => .null
  | some s => .str s

/-- Dump of an `Optional[int]` field. -/
def dumpOptInt : Option Int → Json
  | none => .null
  | some n => .int n

/-- Dump of an `Optional[Dict]` field. -/
def dumpOptDict : Option (List (String × Json)) → Json
  | none => .null
  | some kvs => .obj kvs

/-- `InaraApiHeader.model_dump()` (declaration-ordered fields, `None`s kept). -/
def dumpInaraApiHeader (h : InaraApiHeader) : Json :=
  .obj [("appName", .str h.appName), ("appVersion", .str h.appVersion),
        ("isDeveloped", .bool h.isDeveloped), ("APIkey", .str h.APIkey),
        ("commanderName", dumpOptStr h.commanderName),
        ("commanderFrontierID", dumpOptStr h.commanderFrontierID)]

/-- `InaraEventResponse.model_dump()`. -/
def dumpInaraEventResponse (e : InaraEventResponse) : Json :=
  .obj [("eventStatus", .int e.eventStatus),
        ("eventStatusText", .str e.eventStatusText),
        ("eventData", dumpOptDict e.eventData),
        ("eventCustomID", dumpOptInt e.eventCustomID)]

/-- `InaraResponse.model_dump()`. -/
def dumpInaraResponse (r : InaraResponse) : Json :=
  .obj [("header", dumpInaraApiHeader r.header),
        ("events", .arr (r.events.map dumpInaraEventResponse))]

/-! ## Configuration (`inara_config.py`)

`InaraConfig` is a pydantic `BaseSettings` model.  Its environment-sourced
raw inputs (after the declared defaults have been applied) are modelled by
`RawInaraConfig`; the three declared field validators run in declaration
order.  `max_retries` is an `int` validated to be non-negative, so the
validated snapshot carries it as a `Nat`.  Integer settings that take part
in time arithmetic (window, TTL) are carried as rationals alongside the
`time.time()` floats. -/

/-- The validated configuration snapshot. -/
structure InaraConfig where
  apiKey : String
  appName : String
  appVersion : String
  baseUrl : String
  timeout : Int
  maxRetries : Nat
  retryDelay : ℚ
  backoffFactor : ℚ
  rateLimitRequests : Int
  rateLimitWindow : ℚ
  cacheEnabled : Bool
  cacheTtl : ℚ

/-- The raw settings before validation.  `apiKey = none` models a missing
`INARA_API_KEY` (the field is declared required, with no default). -/
structure RawInaraConfig where
  apiKey : Option String
  appName : String := "EliteStatusCheck"
  appVersion : String := "1.1.0"
  baseUrl : String := "https://inara.cz/inapi/v1/"
  timeout : Int := 30
  maxRetries : Int := 3
  retryDelay : ℚ := 1
  backoffFactor : ℚ := 2
  rateLimitRequests : Int := 100
  rateLimitWindow : ℚ := 3600
  cacheEnabled : Bool := true
  cacheTtl : ℚ := 300

/-- Drop leading ASCII whitespace from a character list, as `str.strip()`
does at each end. -/
def dropLeadingWs : List Char → List Char
  | [] => []
  | c :: rest =>
    if c = ' ' ∨ c = '\t' ∨ c = '\n' ∨ c = '\r' then dropLeadingWs rest
    else c :: rest

/-- Python `str.strip()` (over the ASCII whitespace the claims exercise). -/
def pyStrip (s : String) : String :=
  String.mk ((dropLeadingWs ((dropLeadingWs s.data).reverse)).reverse)

/-- A configuration failure (pydantic's missing-field error, or the
`ValueError` raised by a field validator; `get_inara_config` re-raises
either as its `ValueError`, the spec's `ConfigurationError`). -/
inductive ConfigError where
  | missingApiKey
  | blankApiKey
  | nonPositiveTimeout
  | negativeMaxRetries
deriving DecidableEq

/-- `InaraConfig(...)` construction: the required-field check and the three
declared validators (`validate_api_key` strips and rejects blank keys,
`validate_timeout` rejects `timeout <= 0`, `validate_max_retries` rejects
negative retry counts). -/
def mkInaraConfig (raw : RawInaraConfig) : Except ConfigError InaraConfig :=
  match raw.apiKey with
  | none => .error .missingApiKey
  | some v =>
    if v = "" ∨ pyStrip v = "" then .error .blankApiKey
    else if raw.timeout ≤ 0 then .error .nonPositiveTimeout
    else if raw.maxRetries < 0 then .error .negativeMaxRetries
    else .ok
      { apiKey := pyStrip v
        appName := raw.appName
        appVersion := raw.appVersion
        baseUrl := raw.baseUrl
        timeout := raw.timeout
        maxRetries := raw.maxRetries.toNat
        retryDelay := raw.retryDelay
        backoffFactor := raw.backoffFactor
        rateLimitRequests := raw.rateLimitRequests
        rateLimitWindow := raw.rateLimitWindow
        cacheEnabled := raw.cacheEnabled
        cacheTtl := raw.cacheTtl }

/-! ## Client-side errors (`inara_client.py`)

`InaraApiException(message, error_code=None)` and its subclasses
`InaraRateLimitException` and `InaraAuthenticationException`, plus the
non-client exceptions that can escape `_make_request`: a pydantic
`ValidationError` or `TypeError` raised while parsing (both only ever
escape the `try` body, where the trailing handler wraps them), and the
`IndexError` from `self._request_times[0]` on an empty list. -/

/-- An exception as `_make_request` can raise or observe. -/
inductive InaraError where
  | rateLimit (msg : String)
  | authentication (msg : String) (errorCode : Option Int)
  | api (msg : String) (errorCode : Option Int)
  | validation
  | typeErr
  | indexError
deriving DecidableEq

/-- Python `str(e)` for the exceptions above (for the two library exception
kinds the generated text is irrelevant to every claim and is kept
abstract as a fixed placeholder). -/
def InaraError.message : InaraError → String
  | .rateLimit m => m
  | .authentication m _ => m
  | .api m _ => m
  | .validation => "validation error"
  | .typeErr => "type error"
  | .indexError => "list index out of range"

/-- The trailing `except Exception as e:
raise InaraApiException(f"Unexpected error: {e}")` of `_make_request`:
whatever escaped the `try` body becomes a plain base-class
`InaraApiException` with no `error_code`. -/
def wrapUnexpected (e : InaraError) : InaraError :=
  .api ("Unexpected error: " ++ e.message) none

/-- Lift a parser exception into the exception taxonomy. -/
def ofPyExc : PyExc → InaraError
  | .validationError => .validation
  | .typeError => .typeErr

/-! ## Rate limiter (`_check_rate_limit`) -/

/-- Result of one `_check_rate_limit` admission: the duration actually
slept and the new `_request_times` sequence. -/
structure RateLimitStep where
  slept : ℚ
  newTimes : List ℚ
deriving DecidableEq

/-- `_check_rate_limit`: prune `_request_times` to the trailing window,
sleep when the budget is full, then append `now`.  `self._request_times[0]`
on an empty pruned list raises `IndexError` (reachable only when the
configured budget is `<= 0`). -/
def checkRateLimit (cfg : InaraConfig) (times : List ℚ) (now : ℚ) :
    Except InaraError RateLimitStep :=
  let windowStart := now - cfg.rateLimitWindow
  let pruned := times.filter (fun t => windowStart < t)
  if cfg.rateLimitRequests ≤ (pruned.length : Int) then
    match pruned with
    | [] => .error .indexError
    | t0 :: _ =>
      let sleepTime := t0 + cfg.rateLimitWindow - now
      .ok ⟨if 0 < sleepTime then sleepTime else 0, pruned ++ [now]⟩
  else
    .ok ⟨0, pruned ++ [now]⟩

/-! ## Response cache (`_get_cache_key`, `_is_cached`, `_get_cached`,
`_set_cache`) -/

/-- The information the Python cache-key string
`f"{commanderName}:{hash(str(events_data))}"` is computed from: the
header's commander name and the ordered `(eventName, eventData)` pairs. -/
structure CacheKey where
  commanderName : Option String
  eventsData : List (InaraEventType × Option (List (String × Json)))

/-- Equality of optional event payloads. -/
def beqOptFields :
    Option (List (String × Json)) → Option (List (String × Json)) → Bool
  | none, none => true
  | some a, some b => Json.beqObj a b
  | _, _ => false

/-- Pairwise equality of `(eventName, eventData)` lists. -/
def beqEventsData :
    List (InaraEventType × Option (List (String × Json))) →
    List (InaraEventType × Option (List (String × Json))) → Bool
  | [], [] => true
  | (n1, d1) :: as, (n2, d2) :: bs =>
    decide (n1 = n2) && beqOptFields d1 d2 && beqEventsData as bs
  | _, _ => false

/-- Equality of cache keys (string equality of the Python keys). -/
def CacheKey.beq (a b : CacheKey) : Bool :=
  a.commanderName == b.commanderName && beqEventsData a.eventsData b.eventsData

/-- `_get_cache_key`. -/
def getCacheKey (request : InaraRequest) : CacheKey :=
  ⟨request.header.commanderName,
    request.events.map fun e => (e.eventName, e.eventData)⟩

/-- One `_cache` slot: `{'timestamp': ..., 'data': ...}`.  `data` is kept
optional so that an externally corrupted slot missing the `'data'` key
(the `KeyError` case caught in `_get_cached`) is representable. -/
structure CacheEntry where
  timestamp : ℚ
  data : Option Json

/-- The `_cache` dict. -/
abbrev Cache := List (CacheKey × CacheEntry)

/-- Python dict lookup `cache[key]` / `key in cache`. -/
def cacheLookup : Cache → CacheKey → Option CacheEntry
  | [], _ => none
  | (k, e) :: rest, key => if CacheKey.beq k key then some e else cacheLookup rest key

/-- Python dict assignment `cache[key] = entry` (overwrite or append). -/
def cacheInsert : Cache → CacheKey → CacheEntry → Cache
  | [], key, entry => [(key, entry)]
  | (k, e) :: rest, key, entry =>
    if CacheKey.beq k key then (key, entry) :: rest
    else (k, e) :: cacheInsert rest key entry

/-- `_is_cached`: enabled, present, and within TTL. -/
def isCachedB (cfg : InaraConfig) (cache : Cache) (key : CacheKey) (now : ℚ) :
    Bool :=
  if !cfg.cacheEnabled then false
  else
    match cacheLookup cache key with
    | none => false
    | some entry => decide (now - entry.timestamp < cfg.cacheTtl)

/-- `_get_cached`: re-parse the stored dump with `InaraResponse(**data)`.
A `KeyError` (missing `'data'`) or pydantic `ValidationError` is caught,
logged as a warning, and yields `None`; a `TypeError` (non-mapping `data`)
is not in the `except` tuple and propagates. -/
def getCachedE (cfg : InaraConfig) (cache : Cache) (key : CacheKey) (now : ℚ) :
    Except InaraError (Option InaraResponse) :=
  if isCachedB cfg cache key now = false then .ok none
  else
    match cacheLookup cache key with
    | none => .ok none
    | some entry =>
      match entry.data with
      | none => .ok none
      | some d =>
        match parseInaraResponseJson d with
        | .ok r => .ok (some r)
        | .error .validationError => .ok none
        | .error .typeError => .error .typeErr

/-- `_set_cache`: a no-op when caching is disabled, otherwise store the
response's `model_dump()` stamped with the current time. -/
def setCache (cfg : InaraConfig) (cache : Cache) (key : CacheKey) (now : ℚ)
    (response : InaraResponse) : Cache :=
  if !cfg.cacheEnabled then cache
  else cacheInsert cache key ⟨now, some (dumpInaraResponse response)⟩

/-! ## Core dispatch (`_make_request`) -/

/-- What one `self.client.post(...)` attempt produces: a transport-level
`httpx.RequestError` (carrying its `str(e)` text), or an HTTP response with
status code, body text, and the JSON value `response.json()` yields. -/
inductive HttpOutcome where
  | transportError (msg : String)
  | response (statusCode : Nat) (text : String) (body : Json)

/-- The mutable client state touched by `_make_request`: the rate limiter's
`_request_times` and the `_cache` dict. -/
structure ClientState where
  requestTimes : List ℚ
  cache : Cache

/-- The observable outcome of one `_make_request` call: the returned
response or raised exception, the final client state, the number of HTTP
POST attempts performed, the retry backoff sleeps performed (in order), the
rate-limiter suspensions performed (one per attempt, in order), and the
per-event `API warning` log lines emitted. -/
structure RunResult where
  outcome : Except InaraError InaraResponse
  state : ClientState
  posts : Nat
  retrySleeps : List ℚ
  rateSleeps : List ℚ
  warnings : List String

/-- The `for event in inara_response.events` walk: statuses `>= 200` are
routed (`202` authentication, `>= 400` API error, otherwise a logged
warning — note this logs status `200` as a warning too); statuses below
`200` fall through silently.  Returns the warnings logged before the first
raising event, and the exception it raised, if any. -/
def processEvents : List InaraEventResponse → List String × Option InaraError
  | [] => ([], none)
  | e :: rest =>
    if 200 ≤ e.eventStatus then
      if e.eventStatus = 202 then
        ([], some (.authentication ("Authentication failed: " ++ e.eventStatusText)
          (some e.eventStatus)))
      else if 400 ≤ e.eventStatus then
        ([], some (.api ("API error: " ++ e.eventStatusText) (some e.eventStatus)))
      else
        let (ws, r) := processEvents rest
        (("API warning: " ++ e.eventStatusText) :: ws, r)
    else
      processEvents rest

/-- The shape test `'header' in response_data and 'eventStatus' in
response_data['header'] and 'events' not in response_data`.  (Python's `in`
on a non-dict body or header either yields `False` or raises a `TypeError`
that the trailing handler wraps exactly as the parse failure on the other
branch would be; both are modelled as the test being `false`.) -/
def isErrorShapeBody (body : Json) : Bool :=
  match body with
  | .obj fields =>
    (match lookupField fields "header" with
     | some (.obj hf) => (lookupField hf "eventStatus").isSome
     | _ => false) &&
    (lookupField fields "events").isNone
  | _ => false

/-- The response-classification part of the `try` body, given the parsed
JSON body: shape detection, simplified-shape error mapping, full-shape
parsing and the per-event walk.  Returns the warnings logged and either
the accepted response or the exception raised inside the `try` body. -/
def processBody (body : Json) : List String × Except InaraError InaraResponse :=
  if isErrorShapeBody body then
    ([],
      match pyCall parseInaraErrorResponseFields body with
      | .error e => .error (ofPyExc e)
      | .ok er =>
        if er.header.eventStatus = 400 then
          .error (.authentication
            ("Authentication/Authorization failed: " ++ er.header.eventStatusText)
            (some er.header.eventStatus))
        else
          .error (.api ("API error: " ++ er.header.eventStatusText)
            (some er.header.eventStatus)))
  else
    match parseInaraResponseJson body with
    | .error e => ([], .error (ofPyExc e))
    | .ok r =>
      match processEvents r.events with
      | (ws, some e) => (ws, .error e)
      | (ws, none) => (ws, .ok r)

/-- `_make_request(request, retry_count)`.

`env k` is the outcome of the POST on attempt `k`; `times k` is the
`time.time()` instant during attempt `k` (the successive calls within one
attempt are modelled as one instant — nothing any claim mentions depends
on the sub-second drift between them).

Control flow mirrors the source statement by statement: cache probe
(outside the `try`, so a propagating `TypeError` from `_get_cached`
escapes raw), rate-limit admission (also outside the `try`; its possible
`IndexError` escapes raw), then the `try` body, whose `except` clauses
are: `httpx.HTTPStatusError` (non-2xx statuses via `raise_for_status`,
except 429 which is raised — and then wrapped — before it),
`httpx.RequestError` (transport errors: bounded retry with exponential
backoff, then a plain `InaraApiException`), and the trailing broad
`except Exception` which re-wraps every exception the `try` body itself
raised — including the client's own `InaraRateLimitException`,
`InaraAuthenticationException` and `InaraApiException` — into a fresh
base-class `InaraApiException` with no `error_code`. -/
def makeRequest (cfg : InaraConfig) (env : Nat → HttpOutcome) (times : Nat → ℚ)
    (request : InaraRequest) (st : ClientState) (retryCount : Nat) : RunResult :=
  let now := times retryCount
  let key := getCacheKey request
  match getCachedE cfg st.cache key now with
  | .error e => ⟨.error e, st, 0, [], [], []⟩
  | .ok (some cached) => ⟨.ok cached, st, 0, [], [], []⟩
  | .ok none =>
    match checkRateLimit cfg st.requestTimes now with
    | .error e => ⟨.error e, st, 0, [], [], []⟩
    | .ok step =>
      let st1 : ClientState := ⟨step.newTimes, st.cache⟩
      match env retryCount with
      | .transportError msg =>
        if h : retryCount < cfg.maxRetries then
          let delay := cfg.retryDelay * cfg.backoffFactor ^ retryCount
          let res := makeRequest cfg env times request st1 (retryCount + 1)
          ⟨res.outcome, res.state, res.posts + 1, delay :: res.retrySleeps,
            step.slept :: res.rateSleeps, res.warnings⟩
        else
          ⟨.error (.api ("Request failed after " ++ toString cfg.maxRetries ++
            " retries: " ++ msg) none), st1, 1, [], [step.slept], []⟩
      | .response statusCode text body =>
        if statusCode = 429 then
          ⟨.error (wrapUnexpected (.rateLimit "Rate limit exceeded")), st1, 1,
            [], [step.slept], []⟩
        else if statusCode < 200 ∨ 300 ≤ statusCode then
          let msg := "HTTP error " ++ toString statusCode ++ ": " ++ text
          if statusCode = 401 then
            ⟨.error (.authentication msg none), st1, 1, [], [step.slept], []⟩
          else if statusCode = 429 then
            ⟨.error (.rateLimit msg), st1, 1, [], [step.slept], []⟩
          else
            ⟨.error (.api msg none), st1, 1, [], [step.slept], []⟩
        else
          match processBody body with
          | (ws, .error e) =>
            ⟨.error (wrapUnexpected e), st1, 1, [], [step.slept], ws⟩
          | (ws, .ok r) =>
            ⟨.ok r, ⟨st1.requestTimes, setCache cfg st1.cache key now r⟩, 1,
              [], [step.slept], ws⟩
termination_by cfg.maxRetries - retryCount
decreasing_by omega

/-! ## Domain entities (`inara_models.py`) and their pydantic parsers -/

/-- `CommanderRank`. -/
structure CommanderRank where
  rankName : String
  rankValue : Int
  rankProgress : ℚ

/-- `CommanderRanks`. -/
structure CommanderRanks where
  combat : CommanderRank
  trade : CommanderRank
  explore : CommanderRank
  soldier : CommanderRank
  exobiologist : CommanderRank
  cqc : CommanderRank
  federation : CommanderRank
  empire : CommanderRank
  powerplay : Option CommanderRank

/-- `CommanderCredits`. -/
structure CommanderCredits where
  balance : Int
  loan : Int

/-- `CommanderProfile`. -/
structure CommanderProfile where
  userID : Int
  userName : String
  commanderName : String
  commanderRanksPilot : CommanderRanks
  commanderCredits : CommanderCredits
  preferredAllegianceName : Option String
  preferredPowerName : Option String
  inGameLocation : Option (List (String × String))
  avatarImageURL : Option String
  profileCreated : String
  profileLastUpdate : String

/-- `ShipModule`. -/
structure ShipModule where
  itemName : String
  itemValue : Int
  isOn : Bool
  itemPriority : Int
  itemAmmoClip : Option Int
  itemAmmoHopper : Option Int
  itemHealth : ℚ
  slotName : String
  itemModifications : Option (List (List (String × Json)))

/-- `ShipLoadout`. -/
structure ShipLoadout where
  shipType : String
  shipGameID : Int
  shipName : Option String
  shipIdent : Option String
  isCurrentShip : Bool
  shipValue : Int
  shipHullValue : Int
  shipModulesValue : Int
  shipRebuyCost : Int
  modules : List ShipModule
  shipLastUpdate : String

/-- `SystemFaction`. -/
structure SystemFaction where
  factionName : String
  factionGovernment : String
  factionAllegiance : String
  factionState : String
  factionInfluence : ℚ
  factionHappiness : Option String
  isControllingFaction : Bool

/-- `Station`. -/
structure Station where
  stationID : Int
  stationName : String
  stationType : String
  controllingFaction : String
  stationServices : List String
  stationEconomy : String
  stationEconomySecond : Option String
  stationGovernment : String
  distanceToArrival : ℚ
  stationAllegiance : String
  stationState : String
  marketUpdated : Option String
  shipyardUpdated : Option String
  outfittingUpdated : Option String

/-- `MarketCommodity`. -/
structure MarketCommodity where
  commodityName : String
  meanPrice : Int
  buyPrice : Int
  sellPrice : Int
  stock : Int
  stockBracket : Int
  demand : Int
  demandBracket : Int

/-- `StationMarket`. -/
structure StationMarket where
  stationID : Int
  marketCommodities : List MarketCommodity
  marketLastUpdate : String

/-- Required nested-model field. -/
def parseNestedField {α : Type}
    (parseFields : List (String × Json) → Except PyExc α)
    (fields : List (String × Json)) (name : String) : Except PyExc α :=
  match lookupField fields name with
  | some j => parseNested parseFields j
  | none => .error .validationError

/-- `Optional[Model]` field defaulting to `None`. -/
def parseOptNestedField {α : Type}
    (parseFields : List (String × Json) → Except PyExc α)
    (fields : List (String × Json)) (name : String) :
    Except PyExc (Option α) :=
  match lookupField fields name with
  | none => .ok none
  | some .null => .ok none
  | some j =>
    match parseNested parseFields j with
    | .ok a => .ok (some a)
    | .error e => .error e

/-- `List[Model]` field with `default_factory=list`. -/
def parseNestedListFieldD {α : Type}
    (parseFields : List (String × Json) → Except PyExc α)
    (fields : List (String × Json)) (name : String) : Except PyExc (List α) :=
  match lookupField fields name with
  | none => .ok []
  | some (.arr items) => parseNestedList parseFields items
  | _ => .error .validationError

/-- All values of a JSON object coerced to `str` (for `Dict[str, str]`). -/
def parseStrPairs : List (String × Json) → Except PyExc (List (String × String))
  | [] => .ok []
  | (k, .str v) :: rest => do
    let tail ← parseStrPairs rest
    return (k, v) :: tail
  | _ => .error .validationError

/-- `Optional[Dict[str, str]]` field defaulting to `None`. -/
def parseOptStrDictField (fields : List (String × Json)) (name : String) :
    Except PyExc (Option (List (String × String))) :=
  match lookupField fields name with
  | none => .ok none
  | some .null => .ok none
  | some (.obj kvs) =>
    match parseStrPairs kvs with
    | .ok pairs => .ok (some pairs)
    | .error e => .error e
  | _ => .error .validationError

/-- All elements of a JSON array coerced to objects (for `List[Dict]`). -/
def parseDictItems : List Json → Except PyExc (List (List (String × Json)))
  | [] => .ok []
  | .obj kvs :: rest => do
    let tail ← parseDictItems rest
    return kvs :: tail
  | _ => .error .validationError

/-- `Optional[List[Dict[str, Any]]]` field defaulting to `None`. -/
def parseOptDictListField (fields : List (String × Json)) (name : String) :
    Except PyExc (Option (List (List (String × Json)))) :=
  match lookupField fields name with
  | none => .ok none
  | some .null => .ok none
  | some (.arr items) =>
    match parseDictItems items with
    | .ok ds => .ok (some ds)
    | .error e => .error e
  | _ => .error .validationError

/-- All elements of a JSON array coerced to `str` (for `List[str]`). -/
def parseStrItems : List Json → Except PyExc (List String)
  | [] => .ok []
  | .str s :: rest => do
    let tail ← parseStrItems rest
    return s :: tail
  | _ => .error .validationError

/-- `List[str]` field with `default_factory=list`. -/
def parseStrListFieldD (fields : List (String × Json)) (name : String) :
    Except PyExc (List String) :=
  match lookupField fields name with
  | none => .ok []
  | some (.arr items) => parseStrItems items
  | _ => .error .validationError

/-- `CommanderRank(**fields)`, field part. -/
def parseCommanderRankFields (fields : List (String × Json)) :
    Except PyExc CommanderRank := do
  let rankName ← parseStrField fields "rankName"
  let rankValue ← parseIntField fields "rankValue"
  let rankProgress ← parseFloatField fields "rankProgress"
  return ⟨rankName, rankValue, rankProgress⟩

/-- `CommanderRanks(**fields)`, field part. -/
def parseCommanderRanksFields (fields : List (String × Json)) :
    Except PyExc CommanderRanks := do
  let combat ← parseNestedField parseCommanderRankFields fields "combat"
  let trade ← parseNestedField parseCommanderRankFields fields "trade"
  let explore ← parseNestedField parseCommanderRankFields fields "explore"
  let soldier ← parseNestedField parseCommanderRankFields fields "soldier"
  let exobiologist ← parseNestedField parseCommanderRankFields fields "exobiologist"
  let cqc ← parseNestedField parseCommanderRankFields fields "cqc"
  let federation ← parseNestedField parseCommanderRankFields fields "federation"
  let empire ← parseNestedField parseCommanderRankFields fields "empire"
  let powerplay ← parseOptNestedField parseCommanderRankFields fields "powerplay"
  return ⟨combat, trade, explore, soldier, exobiologist, cqc, federation, empire,
    powerplay⟩

/-- `CommanderCredits(**fields)`, field part. -/
def parseCommanderCreditsFields (fields : List (String × Json)) :
    Except PyExc CommanderCredits := do
  let balance ← parseIntField fields "balance"
  let loan ← parseIntFieldD fields "loan" 0
  return ⟨balance, loan⟩

/-- `CommanderProfile(**fields)`, field part. -/
def parseCommanderProfileFields (fields : List (String × Json)) :
    Except PyExc CommanderProfile := do
  let userID ← parseIntField fields "userID"
  let userName ← parseStrField fields "userName"
  let commanderName ← parseStrField fields "commanderName"
  let ranks ← parseNestedField parseCommanderRanksFields fields "commanderRanksPilot"
  let credits ← parseNestedField parseCommanderCreditsFields fields "commanderCredits"
  let preferredAllegianceName ← parseOptStrField fields "preferredAllegianceName"
  let preferredPowerName ← parseOptStrField fields "preferredPowerName"
  let inGameLocation ← parseOptStrDictField fields "inGameLocation"
  let avatarImageURL ← parseOptStrField fields "avatarImageURL"
  let profileCreated ← parseStrField fields "profileCreated"
  let profileLastUpdate ← parseStrField fields "profileLastUpdate"
  return ⟨userID, userName, commanderName, ranks, credits, preferredAllegianceName,
    preferredPowerName, inGameLocation, avatarImageURL, profileCreated,
    profileLastUpdate⟩

/-- `ShipModule(**fields)`, field part. -/
def parseShipModuleFields (fields : List (String × Json)) :
    Except PyExc ShipModule := do
  let itemName ← parseStrField fields "itemName"
  let itemValue ← parseIntField fields "itemValue"
  let isOn ← parseBoolFieldD fields "isOn" true
  let itemPriority ← parseIntFieldD fields "itemPriority" 1
  let itemAmmoClip ← parseOptIntField fields "itemAmmoClip"
  let itemAmmoHopper ← parseOptIntField fields "itemAmmoHopper"
  let itemHealth ← parseFloatFieldD fields "itemHealth" 1
  let slotName ← parseStrField fields "slotName"
  let itemModifications ← parseOptDictListField fields "itemModifications"
  return ⟨itemName, itemValue, isOn, itemPriority, itemAmmoClip, itemAmmoHopper,
    itemHealth, slotName, itemModifications⟩

/-- `ShipLoadout(**fields)`, field part. -/
def parseShipLoadoutFields (fields : List (String × Json)) :
    Except PyExc ShipLoadout := do
  let shipType ← parseStrField fields "shipType"
  let shipGameID ← parseIntField fields "shipGameID"
  let shipName ← parseOptStrField fields "shipName"
  let shipIdent ← parseOptStrField fields "shipIdent"
  let isCurrentShip ← parseBoolFieldD fields "isCurrentShip" false
  let shipValue ← parseIntField fields "shipValue"
  let shipHullValue ← parseIntField fields "shipHullValue"
  let shipModulesValue ← parseIntField fields "shipModulesValue"
  let shipRebuyCost ← parseIntField fields "shipRebuyCost"
  let modules ← parseNestedListFieldD parseShipModuleFields fields "modules"
  let shipLastUpdate ← parseStrField fields "shipLastUpdate"
  return ⟨shipType, shipGameID, shipName, shipIdent, isCurrentShip, shipValue,
    shipHullValue, shipModulesValue, shipRebuyCost, modules, shipLastUpdate⟩

/-- `SystemFaction(**fields)`, field part. -/
def parseSystemFactionFields (fields : List (String × Json)) :
    Except PyExc SystemFaction := do
  let factionName ← parseStrField fields "factionName"
  let factionGovernment ← parseStrField fields "factionGovernment"
  let factionAllegiance ← parseStrField fields "factionAllegiance"
  let factionState ← parseStrField fields "factionState"
  let factionInfluence ← parseFloatField fields "factionInfluence"
  let factionHappiness ← parseOptStrField fields "factionHappiness"
  let isControllingFaction ← parseBoolFieldD fields "isControllingFaction" false
  return ⟨factionName, factionGovernment, factionAllegiance, factionState,
    factionInfluence, factionHappiness, isControllingFaction⟩

/-- `Station(**fields)`, field part. -/
def parseStationFields (fields : List (String × Json)) :
    Except PyExc Station := do
  let stationID ← parseIntField fields "stationID"
  let stationName ← parseStrField fields "stationName"
  let stationType ← parseStrField fields "stationType"
  let controllingFaction ← parseStrField fields "controllingFaction"
  let stationServices ← parseStrListFieldD fields "stationServices"
  let stationEconomy ← parseStrField fields "stationEconomy"
  let stationEconomySecond ← parseOptStrField fields "stationEconomySecond"
  let stationGovernment ← parseStrField fields "stationGovernment"
  let distanceToArrival ← parseFloatField fields "distanceToArrival"
  let stationAllegiance ← parseStrField fields "stationAllegiance"
  let stationState ← parseStrField fields "stationState"
  let marketUpdated ← parseOptStrField fields "marketUpdated"
  let shipyardUpdated ← parseOptStrField fields "shipyardUpdated"
  let outfittingUpdated ← parseOptStrField fields "outfittingUpdated"
  return ⟨stationID, stationName, stationType, controllingFaction, stationServices,
    stationEconomy, stationEconomySecond, stationGovernment, distanceToArrival,
    stationAllegiance, stationState, marketUpdated, shipyardUpdated,
    outfittingUpdated⟩

/-- `MarketCommodity(**fields)`, field part. -/
def parseMarketCommodityFields (fields : List (String × Json)) :
    Except PyExc MarketCommodity := do
  let commodityName ← parseStrField fields "commodityName"
  let meanPrice ← parseIntField fields "meanPrice"
  let buyPrice ← parseIntField fields "buyPrice"
  let sellPrice ← parseIntField fields "sellPrice"
  let stock ← parseIntField fields "stock"
  let stockBracket ← parseIntField fields "stockBracket"
  let demand ← parseIntField fields "demand"
  let demandBracket ← parseIntField fields "demandBracket"
  return ⟨commodityName, meanPrice, buyPrice, sellPrice, stock, stockBracket,
    demand, demandBracket⟩

/-- `StationMarket(**fields)`, field part. -/
def parseStationMarketFields (fields : List (String × Json)) :
    Except PyExc StationMarket := do
  let stationID ← parseIntField fields "stationID"
  let marketCommodities ←
    parseNestedListFieldD parseMarketCommodityFields fields "marketCommodities"
  let marketLastUpdate ← parseStrField fields "marketLastUpdate"
  return ⟨stationID, marketCommodities, marketLastUpdate⟩

/-! ## Typed convenience accessors: the response-extraction halves

Each public accessor builds one event, delegates to `send_events` (and so
to `_make_request`), and then extracts and parses `events[0].eventData`
from the returned `InaraResponse`.  The functions below embed that
post-`send` half, which is where the claims' parse-failure handling
lives. -/

/-- The single-entity pattern of `get_commander_profile` /
`get_station_market`: guard `if response.events and
response.events[0].eventData:` (an empty dict payload is falsy and takes
the `return None` path), then `Entity(**eventData)` with `except
ValidationError` logging and returning `None`.  The argument is a dict, so
`TypeError` cannot arise and the parser's failures are exactly the caught
`ValidationError`s. -/
def extractEntity {α : Type}
    (parseFields : List (String × Json) → Except PyExc α)
    (response : InaraResponse) : Option α :=
  match response.events with
  | [] => none
  | e :: _ =>
    match e.eventData with
    | none => none
    | some [] => none
    | some kvs =>
      match parseFields kvs with
      | .ok a => some a
      | .error _ => none

/-- `get_commander_profile`, extraction half. -/
def extractCommanderProfile : InaraResponse → Option CommanderProfile :=
  extractEntity parseCommanderProfileFields

/-- `get_station_market`, extraction half. -/
def extractStationMarket : InaraResponse → Option StationMarket :=
  extractEntity parseStationMarketFields

/-- Python iteration `for item in value`: lists yield their elements,
strings their one-character substrings, dicts their keys; other values
raise `TypeError` (which the accessors' `except ValidationError` does not
catch). -/
def pyIter : Json → Except PyExc (List Json)
  | .arr xs => .ok xs
  | .str s => .ok (s.data.map fun c => .str (String.mk [c]))
  | .obj kvs => .ok (kvs.map fun p => .str p.1)
  | _ => .error .typeError

/-- The accumulation loop `for item_data in items_data:
entities.append(Entity(**item_data))` inside `try ... except
ValidationError`: a `ValidationError` aborts the loop and the entities
accumulated so far are returned; a non-mapping element raises `TypeError`,
which is not caught. -/
def entityLoop {α : Type}
    (parseFields : List (String × Json) → Except PyExc α) :
    List Json → List α → Except PyExc (List α)
  | [], acc => .ok acc.reverse
  | item :: rest, acc =>
    match item with
    | .obj fields =>
      match parseFields fields with
      | .ok a => entityLoop parseFields rest (a :: acc)
      | .error _ => .ok acc.reverse
    | _ => .error .typeError

/-- The list pattern of `get_commander_ships` / `get_system_factions` /
`get_system_stations`: same truthiness guard, then
`event_data.get(field, [])` and the accumulation loop. -/
def extractEntityList {α : Type} (field : String)
    (parseFields : List (String × Json) → Except PyExc α)
    (response : InaraResponse) : Except PyExc (List α) :=
  match response.events with
  | [] => .ok []
  | e :: _ =>
    match e.eventData with
    | none => .ok []
    | some [] => .ok []
    | some kvs =>
      match pyIter ((lookupField kvs field).getD (.arr [])) with
      | .error e => .error e
      | .ok items => entityLoop parseFields items []

/-- `get_commander_ships`, extraction half. -/
def extractCommanderShips : InaraResponse → Except PyExc (List ShipLoadout) :=
  extractEntityList "ships" parseShipLoadoutFields

/-- `get_system_factions`, extraction half. -/
def extractSystemFactions : InaraResponse → Except PyExc (List SystemFaction) :=
  extractEntityList "factions" parseSystemFactionFields

/-- `get_system_stations`, extraction half. -/
def extractSystemStations : InaraResponse → Except PyExc (List Station) :=
  extractEntityList "stations" parseStationFields

/-! ## Concrete fixtures used by the claim evaluations and witnesses -/

/-- A validated configuration with the declared default tuning values. -/
def sampleConfig : InaraConfig :=
  ⟨"test-key", "EliteStatusCheck", "1.1.0", "https://inara.cz/inapi/v1/",
    30, 3, 1, 2, 100, 3600, true, 300⟩

/-- A request header as `_create_header` builds it. -/
def sampleHeader : InaraApiHeader :=
  ⟨"EliteStatusCheck", "1.1.0", true, "test-key", some "CMDR Test", none⟩

/-- A one-event `getCommanderProfile` request. -/
def sampleRequest : InaraRequest :=
  ⟨sampleHeader, [⟨.getCommanderProfile, "2024-01-01T00:00:00Z", none, none⟩]⟩

/-- A fresh client: no recorded request times, empty cache. -/
def emptyState : ClientState := ⟨[], []⟩

/-- All `time.time()` calls at instant `0`. -/
def times0 : Nat → ℚ := fun _ => 0

/-- Every POST comes back as HTTP 429. -/
def env429 : Nat → HttpOutcome :=
  fun _ => .response 429 "Too Many Requests" .null

/-- A full-shape event response object with the given status and text. -/
def evJson (status : Int) (text : String) : Json :=
  .obj [("eventStatus", .int status), ("eventStatusText", .str text),
        ("eventData", .null), ("eventCustomID", .null)]

/-- A full-shape body whose single event has status 202. -/
def body202 : Json :=
  .obj [("header", dumpInaraApiHeader sampleHeader),
        ("events", .arr [evJson 202 "Wrong API key"])]

/-- A full-shape body with events of status 150, 404 and 202, in that order. -/
def bodyMix : Json :=
  .obj [("header", dumpInaraApiHeader sampleHeader),
        ("events", .arr [evJson 150 "low status", evJson 404 "Not found",
          evJson 202 "auth late"])]

/-- A full-shape body whose single event has status 150. -/
def body150 : Json :=
  .obj [("header", dumpInaraApiHeader sampleHeader),
        ("events", .arr [evJson 150 "some text"])]

/-- A full-shape body whose single event has status 300. -/
def body300 : Json :=
  .obj [("header", dumpInaraApiHeader sampleHeader),
        ("events", .arr [evJson 300 "between ranges"])]

/-- HTTP 200 with the given JSON body on every attempt. -/
def envOk (body : Json) : Nat → HttpOutcome :=
  fun _ => .response 200 "OK" body

/-- The simplified error shape with status 400. -/
def errBody400 : Json :=
  .obj [("header", .obj [("eventStatus", .int 400),
        ("eventStatusText", .str "Invalid API key")])]

/-- The simplified error shape with status 203. -/
def errBody203 : Json :=
  .obj [("header", .obj [("eventStatus", .int 203),
        ("eventStatusText", .str "Data not found")])]

/-- The parsed `InaraResponse` carried by `body150`. -/
def resp150 : InaraResponse :=
  ⟨sampleHeader, [⟨150, "some text", none, none⟩]⟩

/-- The parsed `InaraResponse` carried by `body300`. -/
def resp300 : InaraResponse :=
  ⟨sampleHeader, [⟨300, "between ranges", none, none⟩]⟩

/-! ## Claim theorems -/

/-- **C1.** The claim reads: an HTTP 429 makes `_make_request` raise
`InaraRateLimitException` immediately, with no retry and no cache entry.
What the code actually does at that input: the
`raise InaraRateLimitException("Rate limit exceeded")` is caught by the
trailing `except Exception` of the same `try` and re-raised as a plain
base-class `InaraApiException("Unexpected error: Rate limit exceeded")`
with `error_code = None` — contradicting `_make_request`'s docstring and
the repository's own test
`test_inara_integration.py::test_make_request_rate_limit_error`.  The rest
of the claim holds: exactly one POST, no backoff retry, and the cache is
left empty. -/
theorem makeRequest_http429_actual :
    makeRequest sampleConfig env429 times0 sampleRequest emptyState 0 =
      ⟨.error (.api "Unexpected error: Rate limit exceeded" none),
        ⟨[0], []⟩, 1, [], [0], []⟩ := by
  rw [makeRequest.eq_def]; rfl

/-- **C3.** The claim reads: a simplified-shape body (`header.eventStatus`
present, no `events`) raises `InaraAuthenticationException` for embedded
status 400 and `InaraApiException` otherwise, both carrying the embedded
status code and text.  What the code actually does: both raises happen
inside the `try` body, so the trailing `except Exception` re-wraps them
into a plain base-class `InaraApiException` whose message embeds the
status text but whose `error_code` is `None`; for status 400 the caller
therefore does not see an `InaraAuthenticationException`, contradicting
`_make_request`'s documented raise behaviour. -/
theorem makeRequest_simplified_shape_actual :
    makeRequest sampleConfig (envOk errBody400) times0 sampleRequest emptyState 0 =
      ⟨.error (.api
          "Unexpected error: Authentication/Authorization failed: Invalid API key"
          none),
        ⟨[0], []⟩, 1, [], [0], []⟩ ∧
    makeRequest sampleConfig (envOk errBody203) times0 sampleRequest emptyState 0 =
      ⟨.error (.api "Unexpected error: API error: Data not found" none),
        ⟨[0], []⟩, 1, [], [0], []⟩ := by
  constructor <;> (rw [makeRequest.eq_def]; rfl)

/-- **C2.** The claim reads: walking a full-shape response's events, the
first status-202 event raises `InaraAuthenticationException`, the first
status `>= 400` raises `InaraApiException` (first qualifying event wins),
and a status strictly between 200 and 400 other than 202 — "e.g. 150" —
is only logged as a warning, with the response returned and cached.
What the code actually does: (i) the 202 / `>= 400` raises are re-wrapped
by the trailing `except Exception` into plain base-class
`InaraApiException`s with `error_code = None`, contradicting the
repository's own test
`test_inara_integration.py::test_make_request_authentication_error`;
(ii) the walk tests `eventStatus >= 200` first, so status 150 falls
through silently — no warning is logged — although the response is indeed
returned and cached; a status inside `[200, 400)` such as 300 is what
gets logged as a warning.  Short-circuiting does hold: in the mixed body
the 404 event raises even though a 202 event follows it. -/
theorem makeRequest_event_routing_actual :
    makeRequest sampleConfig (envOk body202) times0 sampleRequest emptyState 0 =
      ⟨.error (.api "Unexpected error: Authentication failed: Wrong API key" none),
        ⟨[0], []⟩, 1, [], [0], []⟩ ∧
    makeRequest sampleConfig (envOk bodyMix) times0 sampleRequest emptyState 0 =
      ⟨.error (.api "Unexpected error: API error: Not found" none),
        ⟨[0], []⟩, 1, [], [0], []⟩ ∧
    makeRequest sampleConfig (envOk body150) times0 sampleRequest emptyState 0 =
      ⟨.ok resp150,
        ⟨[0], [(getCacheKey sampleRequest, ⟨0, some (dumpInaraResponse resp150)⟩)]⟩,
        1, [], [0], []⟩ ∧
    makeRequest sampleConfig (envOk body300) times0 sampleRequest emptyState 0 =
      ⟨.ok resp300,
        ⟨[0], [(getCacheKey sampleRequest, ⟨0, some (dumpInaraResponse resp300)⟩)]⟩,
        1, [], [0], ["API warning: between ranges"]⟩ := by
  refine ⟨?a, ?b, ?c, ?d⟩ <;> (rw [makeRequest.eq_def]; rfl)

/-! ## Round trip: `InaraResponse(**response.model_dump()) == response`

`_set_cache` stores `model_dump()` and `_get_cached` re-parses it, so a
cache hit returns a value equal to the response stored by the earlier
call. -/

/-- Re-parsing a dumped header restores it. -/
theorem parseHeaderFields_dump (h : InaraApiHeader) :
    parseInaraApiHeaderFields
      [("appName", .str h.appName), ("appVersion", .str h.appVersion),
       ("isDeveloped", .bool h.isDeveloped), ("APIkey", .str h.APIkey),
       ("commanderName", dumpOptStr h.commanderName),
       ("commanderFrontierID", dumpOptStr h.commanderFrontierID)] = .ok h := by
  obtain ⟨a, b, c, d, e, f⟩ := h
  cases e <;> cases f <;> rfl

/-- Re-parsing a dumped header as a nested model restores it. -/
theorem parseNested_dumpHeader (h : InaraApiHeader) :
    parseNested parseInaraApiHeaderFields (dumpInaraApiHeader h) = .ok h := by
  show parseNested parseInaraApiHeaderFields (.obj _) = .ok h
  rw [parseNested, parseHeaderFields_dump]

/-- Re-parsing a dumped event response restores it. -/
theorem parseEventResponseFields_dump (e : InaraEventResponse) :
    parseInaraEventResponseFields
      [("eventStatus", .int e.eventStatus),
       ("eventStatusText", .str e.eventStatusText),
       ("eventData", dumpOptDict e.eventData),
       ("eventCustomID", dumpOptInt e.eventCustomID)] = .ok e := by
  obtain ⟨s, t, d, c⟩ := e
  cases d <;> cases c <;> rfl

/-- Re-parsing a dumped event response as a nested model restores it. -/
theorem parseNested_dumpEventResponse (e : InaraEventResponse) :
    parseNested parseInaraEventResponseFields (dumpInaraEventResponse e) = .ok e := by
  show parseNested parseInaraEventResponseFields (.obj _) = .ok e
  rw [parseNested, parseEventResponseFields_dump]

/-- Re-parsing a dumped event-response list restores it. -/
theorem parseNestedList_dumpEvents (xs : List InaraEventResponse) :
    parseNestedList parseInaraEventResponseFields (xs.map dumpInaraEventResponse) =
      .ok xs := by
  induction xs with
  | nil => rfl
  | cons e rest ih =>
    show (parseNested parseInaraEventResponseFields (dumpInaraEventResponse e) >>=
        fun a => parseNestedList parseInaraEventResponseFields
          (rest.map dumpInaraEventResponse) >>= fun as => pure (a :: as)) = _
    rw [parseNested_dumpEventResponse, ih]
    rfl

/-- `InaraResponse(**response.model_dump())` restores the response. -/
theorem parseInaraResponseJson_dump (r : InaraResponse) :
    parseInaraResponseJson (dumpInaraResponse r) = .ok r := by
  obtain ⟨h, events⟩ := r
  show (parseNested parseInaraApiHeaderFields (dumpInaraApiHeader h) >>=
      fun hd => (parseNestedList parseInaraEventResponseFields
        (events.map dumpInaraEventResponse) >>=
          fun es => pure (⟨hd, es⟩ : InaraResponse))) = _
  rw [parseNested_dumpHeader, parseNestedList_dumpEvents]
  rfl

/-- On a cached, fresh, well-formed entry, `_get_cached` returns the
re-parsed stored response. -/
theorem getCachedE_hit (cfg : InaraConfig) (cache : Cache) (key : CacheKey)
    (now : ℚ) (entry : CacheEntry) (r : InaraResponse)
    (henabled : cfg.cacheEnabled = true)
    (hlook : cacheLookup cache key = some entry)
    (hdata : entry.data = some (dumpInaraResponse r))
    (hfresh : now - entry.timestamp < cfg.cacheTtl) :
    getCachedE cfg cache key now = .ok (some r) := by
  have hc : isCachedB cfg cache key now = true := by
    rw [isCachedB, henabled, hlook]
    simpa using hfresh
  rw [getCachedE, hc]
  rw [if_neg (by simp)]
  rw [hlook]
  simp only [hdata, parseInaraResponseJson_dump]

/-- **C4.** A cache hit — an entry under the request's key, holding the
`model_dump()` of the first call's response, looked up within the TTL
window — makes `_make_request` return that first response immediately:
zero POSTs, no retry or rate-limiter sleeps, and the client state
(including `_request_times`) entirely unchanged.  The second conjunct
pins what the first, successful call stored: `_set_cache` (with caching
enabled) inserts exactly `{'timestamp': now, 'data': response.model_dump()}`
under the key. -/
theorem makeRequest_cache_hit (cfg : InaraConfig) (env : Nat → HttpOutcome)
    (times : Nat → ℚ) (request : InaraRequest) (st : ClientState)
    (r : InaraResponse) (entry : CacheEntry)
    (henabled : cfg.cacheEnabled = true)
    (hlook : cacheLookup st.cache (getCacheKey request) = some entry)
    (hdata : entry.data = some (dumpInaraResponse r))
    (hfresh : times 0 - entry.timestamp < cfg.cacheTtl) :
    makeRequest cfg env times request st 0 = ⟨.ok r, st, 0, [], [], []⟩ ∧
    ∀ (cache : Cache) (key : CacheKey) (t : ℚ),
      setCache cfg cache key t r =
        cacheInsert cache key ⟨t, some (dumpInaraResponse r)⟩ := by
  constructor
  · rw [makeRequest.eq_def]
    simp only [getCachedE_hit cfg st.cache (getCacheKey request) (times 0) entry r
      henabled hlook hdata hfresh]
  · intro cache key t
    rw [setCache, henabled]
    rfl

/-! ## Retry policy (`except httpx.RequestError` branch) -/

/-- With a positive request budget the rate limiter cannot hit its
`IndexError` path: admission always succeeds. -/
theorem checkRateLimit_ok (cfg : InaraConfig) (times : List ℚ) (now : ℚ)
    (hbudget : 1 ≤ cfg.rateLimitRequests) :
    ∃ step, checkRateLimit cfg times now = .ok step := by
  simp only [checkRateLimit]
  split
  · next hcond =>
    cases hp : times.filter (fun t => now - cfg.rateLimitWindow < t) with
    | nil =>
      rw [hp] at hcond
      simp at hcond
      omega
    | cons t0 rest => exact ⟨_, rfl⟩
  · exact ⟨_, rfl⟩

/-- One `_make_request` call performs at most
`max_retries - retry_count + 1` POST attempts, whatever the environment
does. -/
theorem makeRequest_posts_bound :
    ∀ (n : Nat) (cfg : InaraConfig) (env : Nat → HttpOutcome) (times : Nat → ℚ)
      (request : InaraRequest) (st : ClientState) (retryCount : Nat),
      cfg.maxRetries - retryCount ≤ n →
      (makeRequest cfg env times request st retryCount).posts ≤
        cfg.maxRetries - retryCount + 1 := by
  intro n
  induction n with
  | zero =>
    intro cfg env times request st rc hn
    rw [makeRequest.eq_def]
    dsimp only
    repeat' split
    all_goals try dsimp only
    all_goals omega
  | succ n ih =>
    intro cfg env times request st rc hn
    rw [makeRequest.eq_def]
    dsimp only
    repeat' split
    all_goals try dsimp only
    all_goals try omega
    exact Nat.add_le_add_right
      (le_trans (ih cfg env times request _ (rc + 1) (by omega)) (by omega)) 1

/-- The retry contract of `_make_request`, stated at attempt `retryCount`
for a client state whose cache misses the request's key:
1. at most `max_retries - retryCount + 1` POSTs happen from any starting
   state and attempt (so a fresh call performs at most `max_retries + 1`);
2. a transport error with `retryCount < max_retries` sleeps exactly
   `retry_delay * backoff_factor ^ retryCount` and recurses with attempt
   `retryCount + 1` (one more POST, same cache);
3. a transport error with the budget exhausted raises the plain
   `InaraApiException` wrapping the final failure, after exactly one POST;
4. any non-transport outcome performs exactly one POST — classified
   errors are never retried locally. -/
def TransportRetryPolicy (cfg : InaraConfig) (env : Nat → HttpOutcome)
    (times : Nat → ℚ) (request : InaraRequest) (st : ClientState)
    (retryCount : Nat) : Prop :=
  (∀ (st0 : ClientState) (rc0 : Nat),
    (makeRequest cfg env times request st0 rc0).posts ≤
      cfg.maxRetries - rc0 + 1) ∧
  (∀ msg, env retryCount = .transportError msg →
    ∃ step, checkRateLimit cfg st.requestTimes (times retryCount) = .ok step ∧
      (retryCount < cfg.maxRetries →
        ∃ res, makeRequest cfg env times request ⟨step.newTimes, st.cache⟩
            (retryCount + 1) = res ∧
          makeRequest cfg env times request st retryCount =
            ⟨res.outcome, res.state, res.posts + 1,
              cfg.retryDelay * cfg.backoffFactor ^ retryCount :: res.retrySleeps,
              step.slept :: res.rateSleeps, res.warnings⟩) ∧
      (¬ retryCount < cfg.maxRetries →
        makeRequest cfg env times request st retryCount =
          ⟨.error (.api ("Request failed after " ++ toString cfg.maxRetries ++
              " retries: " ++ msg) none),
            ⟨step.newTimes, st.cache⟩, 1, [], [step.slept], []⟩)) ∧
  (∀ statusCode text body, env retryCount = .response statusCode text body →
    (makeRequest cfg env times request st retryCount).posts = 1)

/-- **C5.** Transport-level errors (`httpx.RequestError`, distinct from
HTTP-status errors) are the only locally retried failures: below the
configured maximum the call sleeps `retry_delay * backoff_factor ^ attempt`
and recurses with `attempt + 1`; at the maximum it raises `ApiError`
wrapping the final transport failure; so a run from attempt 0 performs at
most `max_retries + 1` POSTs, and every classified non-transport outcome
is settled after exactly one POST. -/
theorem makeRequest_transport_retry (cfg : InaraConfig) (env : Nat → HttpOutcome)
    (times : Nat → ℚ) (request : InaraRequest) (st : ClientState) (retryCount : Nat)
    (hmiss : getCachedE cfg st.cache (getCacheKey request) (times retryCount) =
      .ok none)
    (hbudget : 1 ≤ cfg.rateLimitRequests) :
    TransportRetryPolicy cfg env times request st retryCount := by
  obtain ⟨step, hstep⟩ :=
    checkRateLimit_ok cfg st.requestTimes (times retryCount) hbudget
  refine ⟨?bound, ?grind, ?single⟩
  case bound =>
    intro st0 rc0
    exact makeRequest_posts_bound (cfg.maxRetries - rc0) cfg env times request st0
      rc0 le_rfl
  case grind =>
    intro msg htrans
    refine ⟨step, hstep, ?retry, ?exhaust⟩
    case retry =>
      intro hlt
      refine ⟨_, rfl, ?_⟩
      conv_lhs => rw [makeRequest.eq_def]
      simp only [hmiss, hstep, htrans]
      rw [dif_pos hlt]
    case exhaust =>
      intro hge
      rw [makeRequest.eq_def]
      simp only [hmiss, hstep, htrans]
      rw [dif_neg hge]
  case single =>
    intro statusCode text body hresp
    rw [makeRequest.eq_def]
    simp only [hmiss, hstep, hresp]
    repeat' split
    all_goals rfl

/-- Every POST fails at the transport level. -/
def envTransport : Nat → HttpOutcome := fun _ => .transportError "Network error"

/-- Witness for C5: the retry contract instantiated on a fresh client with
an always-failing transport, starting at attempt 0. -/
theorem makeRequest_transport_retry_witness :
    getCachedE sampleConfig emptyState.cache (getCacheKey sampleRequest)
      (times0 0) = .ok none ∧
    1 ≤ sampleConfig.rateLimitRequests ∧
    TransportRetryPolicy sampleConfig envTransport times0 sampleRequest
      emptyState 0 :=
  ⟨rfl, by decide,
    makeRequest_transport_retry sampleConfig envTransport times0 sampleRequest
      emptyState 0 rfl (by decide)⟩

/-! ## Rate limiter specification -/

/-- Everything that survives the pruning filter lies inside the trailing
window. -/
theorem mem_filter_window (times : List ℚ) (now w : ℚ) :
    ∀ t ∈ times.filter (fun t => now - w < t), now - w < t := by
  intro t ht
  have h := List.mem_filter.mp ht
  simpa using h.2

/-- **C6.** One `_check_rate_limit` admission (with a positive budget, on
timestamps recorded in the past): the sequence is pruned to the trailing
window — every retained timestamp is younger than `now - window`; if the
pruned count is below the budget no sleep happens; if it reaches the
budget the caller sleeps exactly
`oldest_retained + window - now`, a duration that is positive-or-zero and
never exceeds the window; and in all cases the new sequence is the pruned
sequence with `now` appended. -/
theorem checkRateLimit_spec (cfg : InaraConfig) (times : List ℚ) (now : ℚ)
    (hbudget : 1 ≤ cfg.rateLimitRequests)
    (hpast : ∀ t ∈ times, t ≤ now) :
    ∃ step, checkRateLimit cfg times now = .ok step ∧
      step.newTimes =
        times.filter (fun t => now - cfg.rateLimitWindow < t) ++ [now] ∧
      (∀ t ∈ times.filter (fun t => now - cfg.rateLimitWindow < t),
        now - cfg.rateLimitWindow < t) ∧
      (((times.filter (fun t => now - cfg.rateLimitWindow < t)).length : Int) <
          cfg.rateLimitRequests → step.slept = 0) ∧
      (cfg.rateLimitRequests ≤
          ((times.filter (fun t => now - cfg.rateLimitWindow < t)).length : Int) →
        ∃ t0 rest,
          times.filter (fun t => now - cfg.rateLimitWindow < t) = t0 :: rest ∧
          step.slept = t0 + cfg.rateLimitWindow - now ∧
          0 ≤ step.slept ∧ step.slept ≤ cfg.rateLimitWindow) := by
  simp only [checkRateLimit]
  split
  · next hcond =>
    cases hp : times.filter (fun t => now - cfg.rateLimitWindow < t) with
    | nil =>
      rw [hp] at hcond
      simp at hcond
      omega
    | cons t0 rest =>
      rw [hp] at hcond
      have ht0mem : t0 ∈ times.filter (fun t => now - cfg.rateLimitWindow < t) := by
        rw [hp]; exact List.mem_cons_self t0 rest
      have ht0win : now - cfg.rateLimitWindow < t0 :=
        mem_filter_window times now cfg.rateLimitWindow t0 ht0mem
      have ht0le : t0 ≤ now := hpast t0 (List.mem_of_mem_filter ht0mem)
      have hpos : 0 < t0 + cfg.rateLimitWindow - now := by linarith
      refine ⟨⟨t0 + cfg.rateLimitWindow - now, (t0 :: rest) ++ [now]⟩, ?_, rfl,
        ?_, ?_, ?_⟩
      · dsimp only
        rw [if_pos hpos]
      · intro t ht
        rw [← hp] at ht
        exact mem_filter_window times now cfg.rateLimitWindow t ht
      · intro hlt
        omega
      · intro _
        exact ⟨t0, rest, rfl, rfl, by dsimp only; linarith, by dsimp only; linarith⟩
  · next hcond =>
    refine ⟨⟨0, times.filter (fun t => now - cfg.rateLimitWindow < t) ++ [now]⟩,
      rfl, rfl, mem_filter_window times now cfg.rateLimitWindow, fun _ => rfl, ?_⟩
    intro hge
    exact absurd hge hcond

/-- A two-per-window budget. -/
def rlConfig : InaraConfig := { sampleConfig with rateLimitRequests := 2 }

/-- Witness for C6: two timestamps already inside the window and a budget
of two, admitted at `now = 2`. -/
theorem checkRateLimit_spec_witness :
    1 ≤ rlConfig.rateLimitRequests ∧
    (∀ t ∈ ([0, 1] : List ℚ), t ≤ 2) ∧
    (∃ step, checkRateLimit rlConfig [0, 1] 2 = .ok step ∧
      step.newTimes =
        ([0, 1] : List ℚ).filter (fun t => 2 - rlConfig.rateLimitWindow < t) ++ [2] ∧
      (∀ t ∈ ([0, 1] : List ℚ).filter (fun t => 2 - rlConfig.rateLimitWindow < t),
        2 - rlConfig.rateLimitWindow < t) ∧
      (((([0, 1] : List ℚ).filter
          (fun t => 2 - rlConfig.rateLimitWindow < t)).length : Int) <
          rlConfig.rateLimitRequests → step.slept = 0) ∧
      (rlConfig.rateLimitRequests ≤
          ((([0, 1] : List ℚ).filter
            (fun t => 2 - rlConfig.rateLimitWindow < t)).length : Int) →
        ∃ t0 rest,
          ([0, 1] : List ℚ).filter (fun t => 2 - rlConfig.rateLimitWindow < t) =
            t0 :: rest ∧
          step.slept = t0 + rlConfig.rateLimitWindow - 2 ∧
          0 ≤ step.slept ∧ step.slept ≤ rlConfig.rateLimitWindow)) :=
  ⟨by decide, by decide, checkRateLimit_spec rlConfig [0, 1] 2 (by decide) (by decide)⟩

/-! ## Cache validity specification -/

/-- A call that misses the cache (and has a positive rate-limit budget)
always reaches the network: at least one POST happens. -/
theorem makeRequest_miss_posts (cfg : InaraConfig) (env : Nat → HttpOutcome)
    (times : Nat → ℚ) (request : InaraRequest) (st : ClientState)
    (hmiss : getCachedE cfg st.cache (getCacheKey request) (times 0) = .ok none)
    (hbudget : 1 ≤ cfg.rateLimitRequests) :
    1 ≤ (makeRequest cfg env times request st 0).posts := by
  obtain ⟨step, hstep⟩ :=
    checkRateLimit_ok cfg st.requestTimes (times 0) hbudget
  rw [makeRequest.eq_def]
  simp only [hmiss, hstep]
  repeat' split
  all_goals try dsimp only
  all_goals omega

/-- **C7.** Cache entry validity: a stored entry is reported present by
`_is_cached` exactly while caching is enabled and
`now - insertion_timestamp < cache_ttl`; an absent key is never reported
present; an expired entry is treated as absent by `_get_cached` — and a
call made then goes back to the network (at least one POST); and with
caching disabled the lookup is always absent and `_set_cache` is a
no-op, for every key and response. -/
theorem cache_validity_spec (cfg : InaraConfig) (cache : Cache) (key : CacheKey)
    (now : ℚ) :
    (∀ entry, cacheLookup cache key = some entry →
      (isCachedB cfg cache key now = true ↔
        (cfg.cacheEnabled = true ∧ now - entry.timestamp < cfg.cacheTtl))) ∧
    (cacheLookup cache key = none → isCachedB cfg cache key now = false) ∧
    (∀ entry, cacheLookup cache key = some entry →
      ¬ now - entry.timestamp < cfg.cacheTtl →
      getCachedE cfg cache key now = .ok none) ∧
    (∀ (env : Nat → HttpOutcome) (times : Nat → ℚ) (request : InaraRequest)
      (st : ClientState), st.cache = cache → getCacheKey request = key →
      getCachedE cfg cache key (times 0) = .ok none →
      1 ≤ cfg.rateLimitRequests →
      1 ≤ (makeRequest cfg env times request st 0).posts) ∧
    (cfg.cacheEnabled = false →
      isCachedB cfg cache key now = false ∧
      getCachedE cfg cache key now = .ok none ∧
      ∀ response, setCache cfg cache key now response = cache) := by
  refine ⟨?iff, ?absent, ?expired, ?network, ?disabled⟩
  case iff =>
    intro entry hentry
    rw [isCachedB, hentry]
    cases hE : cfg.cacheEnabled <;> simp [hE]
  case absent =>
    intro h
    rw [isCachedB, h]
    cases hE : cfg.cacheEnabled <;> simp [hE]
  case expired =>
    intro entry hentry hexp
    have hF : isCachedB cfg cache key now = false := by
      rw [isCachedB, hentry]
      cases hE : cfg.cacheEnabled <;> simp [hE, hexp]
    rw [getCachedE]
    simp [hF]
  case network =>
    intro env times request st hst hkey hmiss hbudget
    rw [← hst, ← hkey] at hmiss
    exact makeRequest_miss_posts cfg env times request st hmiss hbudget
  case disabled =>
    intro hE
    have hF : isCachedB cfg cache key now = false := by
      rw [isCachedB, hE]
      rfl
    refine ⟨hF, ?_, ?_⟩
    · rw [getCachedE]
      simp [hF]
    · intro response
      rw [setCache, hE]
      rfl

/-- A configuration with caching turned off. -/
def cfgOff : InaraConfig := { sampleConfig with cacheEnabled := false }

/-- A plain successful response. -/
def respW : InaraResponse := ⟨sampleHeader, [⟨200, "OK", none, none⟩]⟩

/-- A cache slot inserted at time 0 (expired once `now` passes the TTL). -/
def entryExpired : CacheEntry := ⟨0, some (dumpInaraResponse respW)⟩

/-- A cache holding only that slot, under the sample request's key. -/
def cacheExpired : Cache := [(getCacheKey sampleRequest, entryExpired)]

/-- All `time.time()` calls at instant 301, one second past the TTL. -/
def times301 : Nat → ℚ := fun _ => 301

/-- Witness for C7: the expired entry is treated as absent at `now = 301`
and the call goes to the network; with caching disabled the lookup is
absent and the store is a no-op. -/
theorem cache_validity_spec_witness :
    cacheLookup cacheExpired (getCacheKey sampleRequest) = some entryExpired ∧
    ¬ (301 : ℚ) - entryExpired.timestamp < sampleConfig.cacheTtl ∧
    getCachedE sampleConfig cacheExpired (getCacheKey sampleRequest) 301 =
      .ok none ∧
    1 ≤ (makeRequest sampleConfig env429 times301 sampleRequest
      ⟨[], cacheExpired⟩ 0).posts ∧
    cfgOff.cacheEnabled = false ∧
    (isCachedB cfgOff cacheExpired (getCacheKey sampleRequest) 301 = false ∧
      getCachedE cfgOff cacheExpired (getCacheKey sampleRequest) 301 = .ok none ∧
      ∀ response, setCache cfgOff cacheExpired (getCacheKey sampleRequest) 301
        response = cacheExpired) := by
  have hexp : ¬ (301 : ℚ) - entryExpired.timestamp < sampleConfig.cacheTtl := by
    norm_num [entryExpired, sampleConfig]
  have habs : getCachedE sampleConfig cacheExpired (getCacheKey sampleRequest)
      301 = .ok none :=
    (cache_validity_spec sampleConfig cacheExpired
      (getCacheKey sampleRequest) 301).2.2.1 entryExpired rfl hexp
  exact ⟨rfl, hexp, habs,
    (cache_validity_spec sampleConfig cacheExpired
      (getCacheKey sampleRequest) 301).2.2.2.1 env429 times301 sampleRequest
      ⟨[], cacheExpired⟩ rfl rfl habs (by decide),
    rfl,
    (cache_validity_spec cfgOff cacheExpired
      (getCacheKey sampleRequest) 301).2.2.2.2 rfl⟩

/-! ## Configuration validation (C9) -/

/-- **C9.** `InaraConfig` construction fails when the API key is missing or
blank (empty or whitespace-only), rejects `timeout <= 0` and
`max_retries < 0`, and every accepted snapshot has a non-empty (stripped)
key, a positive timeout, and a non-negative retry count. -/
theorem mkInaraConfig_validation (raw : RawInaraConfig) :
    ((raw.apiKey = none ∨ ∃ v, raw.apiKey = some v ∧ pyStrip v = "") →
      ∀ c, mkInaraConfig raw ≠ .ok c) ∧
    (raw.timeout ≤ 0 → ∀ c, mkInaraConfig raw ≠ .ok c) ∧
    (raw.maxRetries < 0 → ∀ c, mkInaraConfig raw ≠ .ok c) ∧
    (∀ c, mkInaraConfig raw = .ok c →
      c.apiKey ≠ "" ∧ 0 < c.timeout ∧ 0 ≤ (c.maxRetries : Int)) := by
  refine ⟨?blank, ?time, ?retries, ?accepted⟩
  case blank =>
    intro h c
    rcases h with h | ⟨v, hv, htrim⟩
    · simp [mkInaraConfig, h]
    · simp only [mkInaraConfig, hv]
      rw [if_pos (Or.inr htrim)]
      exact fun hc => Except.noConfusion hc
  case time =>
    intro ht c
    cases hk : raw.apiKey with
    | none => simp [mkInaraConfig, hk]
    | some v =>
      simp only [mkInaraConfig, hk]
      by_cases hb : v = "" ∨ pyStrip v = ""
      · rw [if_pos hb]
        exact fun hc => Except.noConfusion hc
      · rw [if_neg hb, if_pos ht]
        exact fun hc => Except.noConfusion hc
  case retries =>
    intro hr c
    cases hk : raw.apiKey with
    | none => simp [mkInaraConfig, hk]
    | some v =>
      simp only [mkInaraConfig, hk]
      by_cases hb : v = "" ∨ pyStrip v = ""
      · rw [if_pos hb]
        exact fun hc => Except.noConfusion hc
      · rw [if_neg hb]
        by_cases ht : raw.timeout ≤ 0
        · rw [if_pos ht]
          exact fun hc => Except.noConfusion hc
        · rw [if_neg ht, if_pos hr]
          exact fun hc => Except.noConfusion hc
  case accepted =>
    intro c hc
    rcases hq : raw.apiKey with _ | v
    · rw [mkInaraConfig, hq] at hc
      exact absurd hc (fun h => Except.noConfusion h)
    · simp only [mkInaraConfig, hq] at hc
      by_cases hb : v = "" ∨ pyStrip v = ""
      · rw [if_pos hb] at hc
        exact absurd hc (fun h => Except.noConfusion h)
      · rw [if_neg hb] at hc
        by_cases ht : raw.timeout ≤ 0
        · rw [if_pos ht] at hc
          exact absurd hc (fun h => Except.noConfusion h)
        · rw [if_neg ht] at hc
          by_cases hr : raw.maxRetries < 0
          · rw [if_pos hr] at hc
            exact absurd hc (fun h => Except.noConfusion h)
          · rw [if_neg hr] at hc
            cases hc
            refine ⟨?_, by dsimp only; omega, by dsimp only; omega⟩
            dsimp only
            intro h0
            exact hb (Or.inr h0)

/-- Raw settings whose key is whitespace-only. -/
def rawBlank : RawInaraConfig := { apiKey := some "   " }

/-- Raw settings with a paddable but valid key and default tuning. -/
def rawGood : RawInaraConfig := { apiKey := some " good-key " }

/-- The snapshot `rawGood` validates to. -/
def goodConfig : InaraConfig :=
  ⟨"good-key", "EliteStatusCheck", "1.1.0", "https://inara.cz/inapi/v1/",
    30, 3, 1, 2, 100, 3600, true, 300⟩

/-- Witness for C9: the blank key is rejected; the good raw settings are
accepted, stripped, and satisfy the accepted-snapshot invariants. -/
theorem mkInaraConfig_validation_witness :
    (rawBlank.apiKey = none ∨
      ∃ v, rawBlank.apiKey = some v ∧ pyStrip v = "") ∧
    (∀ c, mkInaraConfig rawBlank ≠ .ok c) ∧
    mkInaraConfig rawGood = .ok goodConfig ∧
    (goodConfig.apiKey ≠ "" ∧ 0 < goodConfig.timeout ∧
      0 ≤ (goodConfig.maxRetries : Int)) := by
  have hblank : rawBlank.apiKey = none ∨
      ∃ v, rawBlank.apiKey = some v ∧ pyStrip v = "" :=
    Or.inr ⟨"   ", rfl, rfl⟩
  have hok : mkInaraConfig rawGood = .ok goodConfig := rfl
  exact ⟨hblank, (mkInaraConfig_validation rawBlank).1 hblank, hok,
    (mkInaraConfig_validation rawGood).2.2.2 goodConfig hok⟩

/-! ## Corrupt cache entries (C10) -/

/-- **C10.** A cache slot that is present and within TTL but whose stored
data fails to re-parse as a valid `InaraResponse` — either the slot lacks
the `'data'` key (the `KeyError` branch of the `except`) or the stored
value draws a pydantic `ValidationError` — is degraded by `_get_cached`
to a miss: it logs a warning and returns `None` instead of raising, so
the call falls through to the network path (at least one POST). -/
theorem getCached_corrupt_entry (cfg : InaraConfig) (cache : Cache)
    (key : CacheKey) (now : ℚ) (entry : CacheEntry)
    (hen : cfg.cacheEnabled = true)
    (hlook : cacheLookup cache key = some entry)
    (hfresh : now - entry.timestamp < cfg.cacheTtl)
    (hcorrupt : entry.data = none ∨
      ∃ d, entry.data = some d ∧
        parseInaraResponseJson d = .error .validationError) :
    getCachedE cfg cache key now = .ok none ∧
    (∀ (env : Nat → HttpOutcome) (times : Nat → ℚ) (request : InaraRequest)
      (st : ClientState), st.cache = cache → getCacheKey request = key →
      times 0 = now → 1 ≤ cfg.rateLimitRequests →
      1 ≤ (makeRequest cfg env times request st 0).posts) := by
  have hc : isCachedB cfg cache key now = true := by
    rw [isCachedB, hen, hlook]
    simpa using hfresh
  have habs : getCachedE cfg cache key now = .ok none := by
    rw [getCachedE, hc]
    rw [if_neg (by simp)]
    rw [hlook]
    rcases hcorrupt with hdata | ⟨d, hdata, hbad⟩
    · simp only [hdata]
    · simp only [hdata, hbad]
  refine ⟨habs, ?_⟩
  intro env times request st hst hkey htime hbudget
  have hmiss : getCachedE cfg st.cache (getCacheKey request) (times 0) =
      .ok none := by
    rw [hst, hkey, htime]
    exact habs
  exact makeRequest_miss_posts cfg env times request st hmiss hbudget

/-- A stored dump that no longer parses (no `header`, no `events`). -/
def dCorrupt : Json := .obj [("corrupted", .bool true)]

/-- A fresh-but-corrupt cache slot inserted at time 0. -/
def entryCorrupt : CacheEntry := ⟨0, some dCorrupt⟩

/-- A cache holding only the corrupt slot under the sample request's key. -/
def cacheCorrupt : Cache := [(getCacheKey sampleRequest, entryCorrupt)]

/-- A fresh slot whose dict lacks the `'data'` key (the `KeyError` case). -/
def entryNoData : CacheEntry := ⟨0, none⟩

/-- A cache holding only the data-less slot under the sample request's key. -/
def cacheNoData : Cache := [(getCacheKey sampleRequest, entryNoData)]

/-- All `time.time()` calls at instant 1, well inside the TTL. -/
def times1 : Nat → ℚ := fun _ => 1

/-- Witness for C4: a cache populated with the dump of an earlier response,
probed one second later (inside the 300-second TTL), returns that response
with zero POSTs and unchanged state.  -/
theorem makeRequest_cache_hit_witness :
    sampleConfig.cacheEnabled = true ∧
    cacheLookup cacheExpired (getCacheKey sampleRequest) = some entryExpired ∧
    entryExpired.data = some (dumpInaraResponse respW) ∧
    times1 0 - entryExpired.timestamp < sampleConfig.cacheTtl ∧
    (makeRequest sampleConfig env429 times1 sampleRequest
        ⟨[], cacheExpired⟩ 0 =
      ⟨.ok respW, ⟨[], cacheExpired⟩, 0, [], [], []⟩ ∧
      ∀ (cache : Cache) (key : CacheKey) (t : ℚ),
        setCache sampleConfig cache key t respW =
          cacheInsert cache key ⟨t, some (dumpInaraResponse respW)⟩) := by
  have hfresh : times1 0 - entryExpired.timestamp < sampleConfig.cacheTtl := by
    norm_num [times1, entryExpired, sampleConfig]
  exact ⟨rfl, rfl, rfl, hfresh,
    makeRequest_cache_hit sampleConfig env429 times1 sampleRequest
      ⟨[], cacheExpired⟩ respW entryExpired rfl rfl rfl hfresh⟩

/-- Witness for C10, exercising both corruption branches: the slot whose
stored value fails validation, and the slot missing the `'data'` key; each,
looked up one second after insertion, degrades to a miss and the call
reaches the network. -/
theorem getCached_corrupt_entry_witness :
    sampleConfig.cacheEnabled = true ∧
    cacheLookup cacheCorrupt (getCacheKey sampleRequest) = some entryCorrupt ∧
    (1 : ℚ) - entryCorrupt.timestamp < sampleConfig.cacheTtl ∧
    entryCorrupt.data = some dCorrupt ∧
    parseInaraResponseJson dCorrupt = .error .validationError ∧
    getCachedE sampleConfig cacheCorrupt (getCacheKey sampleRequest) 1 =
      .ok none ∧
    1 ≤ (makeRequest sampleConfig env429 times1 sampleRequest
      ⟨[], cacheCorrupt⟩ 0).posts ∧
    cacheLookup cacheNoData (getCacheKey sampleRequest) = some entryNoData ∧
    (1 : ℚ) - entryNoData.timestamp < sampleConfig.cacheTtl ∧
    entryNoData.data = none ∧
    getCachedE sampleConfig cacheNoData (getCacheKey sampleRequest) 1 =
      .ok none ∧
    1 ≤ (makeRequest sampleConfig env429 times1 sampleRequest
      ⟨[], cacheNoData⟩ 0).posts := by
  have hfresh : (1 : ℚ) - entryCorrupt.timestamp < sampleConfig.cacheTtl := by
    norm_num [entryCorrupt, sampleConfig]
  have hfresh2 : (1 : ℚ) - entryNoData.timestamp < sampleConfig.cacheTtl := by
    norm_num [entryNoData, sampleConfig]
  have hmain := getCached_corrupt_entry sampleConfig cacheCorrupt
    (getCacheKey sampleRequest) 1 entryCorrupt rfl rfl hfresh
    (Or.inr ⟨dCorrupt, rfl, rfl⟩)
  have hmain2 := getCached_corrupt_entry sampleConfig cacheNoData
    (getCacheKey sampleRequest) 1 entryNoData rfl rfl hfresh2 (Or.inl rfl)
  exact ⟨rfl, rfl, hfresh, rfl, rfl, hmain.1,
    hmain.2 env429 times1 sampleRequest ⟨[], cacheCorrupt⟩ rfl rfl rfl
      (by decide),
    rfl, hfresh2, rfl, hmain2.1,
    hmain2.2 env429 times1 sampleRequest ⟨[], cacheNoData⟩ rfl rfl rfl
      (by decide)⟩

/-! ## Parse-failure handling in the typed accessors (C8) -/

/-- A well-formed ship payload: all required `ShipLoadout` fields. -/
def goodShipFields : List (String × Json) :=
  [("shipType", .str "Python"), ("shipGameID", .int 1),
   ("shipValue", .int 100), ("shipHullValue", .int 80),
   ("shipModulesValue", .int 20), ("shipRebuyCost", .int 5),
   ("shipLastUpdate", .str "2024-01-01")]

/-- The `ShipLoadout` that payload parses to. -/
def goodShip : ShipLoadout :=
  ⟨"Python", 1, none, none, false, 100, 80, 20, 5, [], "2024-01-01"⟩

/-- A ships event whose list holds one valid ship followed by an invalid
one (`{}` misses every required field). -/
def evShips : InaraEventResponse :=
  ⟨200, "OK", some [("ships", .arr [.obj goodShipFields, .obj []])], none⟩

/-- The response carrying that event. -/
def shipsPartialResp : InaraResponse := ⟨sampleHeader, [evShips]⟩

/-- **C8, counterexample.** The claim reads: on a payload that fails to
parse, each accessor returns absent (`None`) or an empty list.  But
`get_commander_ships` on a ships list `[valid, invalid]` catches the
`ValidationError` after appending the first ship and returns the one-ship
list — neither absent nor empty, though indeed no exception escapes. -/
theorem extractCommanderShips_partial_counterexample :
    extractCommanderShips shipsPartialResp = .ok [goodShip] ∧
    parseShipLoadoutFields [] = .error .validationError ∧
    ([goodShip] : List ShipLoadout) ≠ [] :=
  ⟨rfl, rfl, by simp⟩

/-- Pointwise: each JSON item is an object whose fields parse to the
corresponding value. -/
def ParsesAll {α : Type}
    (parseFields : List (String × Json) → Except PyExc α) :
    List Json → List α → Prop :=
  List.Forall₂ (fun j a => ∃ f, j = Json.obj f ∧ parseFields f = .ok a)

/-- The accumulation loop on `good ++ bad :: tail` stops at `bad` and
returns the accumulator plus the parsed good values. -/
theorem entityLoop_stops_at_failure {α : Type}
    (parseFields : List (String × Json) → Except PyExc α)
    (goodItems : List Json) (goodVals : List α)
    (badFields : List (String × Json)) (tail : List Json)
    (hgood : ParsesAll parseFields goodItems goodVals)
    (hbad : parseFields badFields = .error .validationError) :
    ∀ acc,
      entityLoop parseFields (goodItems ++ Json.obj badFields :: tail) acc =
        .ok (acc.reverse ++ goodVals) := by
  induction hgood with
  | nil =>
    intro acc
    rw [List.nil_append, entityLoop]
    rw [hbad]
    simp
  | @cons j a js as hj hrest ih =>
    obtain ⟨f, rfl, hok⟩ := hj
    intro acc
    rw [List.cons_append, entityLoop]
    rw [hok]
    show entityLoop parseFields (js ++ Json.obj badFields :: tail) (a :: acc) =
      Except.ok (acc.reverse ++ a :: as)
    rw [ih (a :: acc)]
    simp

/-- The accumulation loop never surfaces a `ValidationError`. -/
theorem entityLoop_no_validation {α : Type}
    (parseFields : List (String × Json) → Except PyExc α) :
    ∀ (items : List Json) (acc : List α),
      entityLoop parseFields items acc ≠ .error .validationError := by
  intro items
  induction items with
  | nil =>
    intro acc h
    simp [entityLoop] at h
  | cons item rest ih =>
    intro acc h
    cases item with
    | obj fields =>
      rw [entityLoop] at h
      cases hp : parseFields fields with
      | ok a =>
        rw [hp] at h
        exact ih (a :: acc) h
      | error e =>
        rw [hp] at h
        simp at h
    | null => simp [entityLoop] at h
    | bool b => simp [entityLoop] at h
    | int n => simp [entityLoop] at h
    | num q => simp [entityLoop] at h
    | str s => simp [entityLoop] at h
    | arr xs => simp [entityLoop] at h

/-- Python iteration only ever fails with `TypeError`. -/
theorem pyIter_error (j : Json) (e : PyExc) (h : pyIter j = .error e) :
    e = .typeError := by
  cases j <;> simp_all [pyIter]

/-- The list extraction never surfaces a `ValidationError`: non-mapping
list values and elements raise `TypeError`, a failing element's
`ValidationError` is caught inside the loop. -/
theorem extractEntityList_no_validation {α : Type} (field : String)
    (parseFields : List (String × Json) → Except PyExc α)
    (response : InaraResponse) :
    extractEntityList field parseFields response ≠ .error .validationError := by
  intro h
  rcases hev : response.events with _ | ⟨e, rest⟩
  · simp only [extractEntityList, hev] at h
    exact Except.noConfusion h
  · rcases hdata : e.eventData with _ | kvs
    · simp only [extractEntityList, hev, hdata] at h
      exact Except.noConfusion h
    · rcases kvs with _ | ⟨p, ps⟩
      · simp only [extractEntityList, hev, hdata] at h
        exact Except.noConfusion h
      · simp only [extractEntityList, hev, hdata] at h
        rcases hit : pyIter ((lookupField (p :: ps) field).getD (.arr []))
          with e2 | items
        · simp only [hit] at h
          have he2 : e2 = PyExc.validationError := by simpa using h
          have ht := pyIter_error _ e2 hit
          rw [ht] at he2
          exact PyExc.noConfusion he2
        · simp only [hit] at h
          exact entityLoop_no_validation parseFields items [] h

/-- The single-entity extraction maps a payload whose parse fails to
`None`. -/
theorem extractEntity_failure {α : Type}
    (parseFields : List (String × Json) → Except PyExc α)
    (response : InaraResponse) (e : InaraEventResponse)
    (rest : List InaraEventResponse) (kvs : List (String × Json))
    (hev : response.events = e :: rest) (hdata : e.eventData = some kvs)
    (hbad : parseFields kvs = .error .validationError) :
    extractEntity parseFields response = none := by
  cases kvs with
  | nil => simp [extractEntity, hev, hdata]
  | cons p ps => simp [extractEntity, hev, hdata, hbad]

/-- The list accessors' contract on a payload whose entity list holds a
run of parseable objects followed by a failing one: the result is the
parsed run — the prefix before the failure. -/
def ListPrefixOnFailure {α : Type} (field : String)
    (parseFields : List (String × Json) → Except PyExc α)
    (extract : InaraResponse → Except PyExc (List α))
    (response : InaraResponse) : Prop :=
  ∀ (e : InaraEventResponse) (rest : List InaraEventResponse)
    (kvs : List (String × Json)) (goodItems : List Json) (goodVals : List α)
    (badFields : List (String × Json)) (tail : List Json),
    response.events = e :: rest → e.eventData = some kvs →
    lookupField kvs field = some (.arr (goodItems ++ Json.obj badFields :: tail)) →
    ParsesAll parseFields goodItems goodVals →
    parseFields badFields = .error .validationError →
    extract response = .ok goodVals

/-- The generic list extraction satisfies that contract. -/
theorem extractEntityList_stops_at_failure {α : Type} (field : String)
    (parseFields : List (String × Json) → Except PyExc α)
    (response : InaraResponse) :
    ListPrefixOnFailure field parseFields (extractEntityList field parseFields)
      response := by
  intro e rest kvs goodItems goodVals badFields tail hev hdata hfield hgood hbad
  cases kvs with
  | nil => simp [lookupField] at hfield
  | cons p ps =>
    simp only [extractEntityList, hev, hdata, hfield, Option.getD, pyIter]
    rw [entityLoop_stops_at_failure parseFields goodItems goodVals badFields tail hgood
      hbad []]
    simp

/-- **C8 (amended).** Each typed convenience accessor catches the pydantic
`ValidationError` of a failing payload locally (logging it) and never
propagates it: the single-entity accessors (`get_commander_profile`,
`get_station_market`) then return `None`, while the list accessors
(`get_commander_ships`, `get_system_factions`, `get_system_stations`)
return the elements successfully parsed before the first failing one — a
possibly-empty, possibly-partial list rather than always an empty one. -/
theorem extract_parse_failure_caught (response : InaraResponse) :
    (∀ (e : InaraEventResponse) (rest : List InaraEventResponse)
      (kvs : List (String × Json)),
      response.events = e :: rest → e.eventData = some kvs →
      parseCommanderProfileFields kvs = .error .validationError →
      extractCommanderProfile response = none) ∧
    (∀ (e : InaraEventResponse) (rest : List InaraEventResponse)
      (kvs : List (String × Json)),
      response.events = e :: rest → e.eventData = some kvs →
      parseStationMarketFields kvs = .error .validationError →
      extractStationMarket response = none) ∧
    ListPrefixOnFailure "ships" parseShipLoadoutFields extractCommanderShips
      response ∧
    ListPrefixOnFailure "factions" parseSystemFactionFields extractSystemFactions
      response ∧
    ListPrefixOnFailure "stations" parseStationFields extractSystemStations
      response ∧
    extractCommanderShips response ≠ .error .validationError ∧
    extractSystemFactions response ≠ .error .validationError ∧
    extractSystemStations response ≠ .error .validationError :=
  ⟨fun e rest kvs hev hdata hbad =>
      extractEntity_failure parseCommanderProfileFields response e rest kvs hev
        hdata hbad,
    fun e rest kvs hev hdata hbad =>
      extractEntity_failure parseStationMarketFields response e rest kvs hev
        hdata hbad,
    extractEntityList_stops_at_failure "ships" parseShipLoadoutFields response,
    extractEntityList_stops_at_failure "factions" parseSystemFactionFields response,
    extractEntityList_stops_at_failure "stations" parseStationFields response,
    extractEntityList_no_validation "ships" parseShipLoadoutFields response,
    extractEntityList_no_validation "factions" parseSystemFactionFields response,
    extractEntityList_no_validation "stations" parseStationFields response⟩

/-- Witness for the amended C8: on the one-good-one-bad ships payload the
hypotheses hold concretely and the accessor returns the one-ship prefix. -/
theorem extract_parse_failure_caught_witness :
    shipsPartialResp.events = evShips :: [] ∧
    evShips.eventData = some [("ships", .arr [.obj goodShipFields, .obj []])] ∧
    lookupField [("ships", .arr [.obj goodShipFields, .obj []])] "ships" =
      some (.arr ([.obj goodShipFields] ++ Json.obj [] :: [])) ∧
    ParsesAll parseShipLoadoutFields [.obj goodShipFields] [goodShip] ∧
    parseShipLoadoutFields [] = .error .validationError ∧
    extractCommanderShips shipsPartialResp = .ok [goodShip] := by
  have hgood : ParsesAll parseShipLoadoutFields [.obj goodShipFields] [goodShip] :=
    List.Forall₂.cons ⟨goodShipFields, rfl, rfl⟩ List.Forall₂.nil
  exact ⟨rfl, rfl, rfl, hgood, rfl,
    (extract_parse_failure_caught shipsPartialResp).2.2.1 evShips []
      [("ships", .arr [.obj goodShipFields, .obj []])] [.obj goodShipFields]
      [goodShip] [] [] rfl rfl rfl hgood rfl⟩

end EliteStatus
